import Mathlib

/-!
Shallow embedding of the NoorSigner launch-orchestration code
(`src-tauri/src/key_signer.rs`, Unix/Linux build, plus the Windows pieces of
`src-tauri/src/key_signer_windows.rs` that the claims cite).

Modelling conventions:
* Every operating-system query (environment variable, file existence, process
  spawn outcome, socket probe) is an input field of an environment structure,
  so each source function becomes a pure Lean function of that environment.
* Side effects are recorded as an explicit list of `Action`s in the order the
  source performs them.
* File contents are `List Char` (the source reads UTF-8 text); integers are
  `Int` with the i64 range checked explicitly where the source parses an i64.
* The system clock is modelled as an `Int` field `now` (the source's
  `SystemTime::now` branch for a pre-epoch clock is not modelled).
* Within one invocation no other actor mutates the trust-session file, so the
  re-check `trust_session_path.exists()` before deletion is modelled by the
  same environment field that the earlier read used.
-/

deriving instance DecidableEq for Except

namespace NoorSigner

/-- Side effects performed by the launch/installation code, in order. -/
inductive Action where
  | createDir
  | copyBinary
  | chmod
  | spawnDetached
  | deleteTrustSession
  | spawnTerminal (terminal : String)
  deriving DecidableEq, Repr

/-- Filesystem / environment inputs consumed by `ensure_noorsigner_installed`
(key_signer.rs lines 114-159): result of `std::env::var("HOME")`, existence of
`~/.noornote/bin`, outcome of `create_dir_all`, existence of the installed
binary, whether the bundled sidecar was found, and the copy / chmod outcomes. -/
structure FsEnv where
  home : Except String String
  binDirPresent : Bool
  createDirOk : Bool
  binaryInstalled : Bool
  sidecarFound : Bool
  copyOk : Bool
  chmodOk : Bool

/-- Continuation of `ensure_noorsigner_installed` after the directory step:
return early if the binary is already installed, otherwise locate the sidecar,
copy it, and set the executable bit (key_signer.rs lines 131-158). -/
def ensureAfterDir (fs : FsEnv) (target : String) (acts : List Action) :
    List Action × Except String String :=
  if fs.binaryInstalled then (acts, Except.ok target)
  else if fs.sidecarFound = false then
    (acts, Except.error "NoorSigner sidecar not found")
  else if fs.copyOk = false then
    (acts ++ [Action.copyBinary], Except.error "Failed to copy NoorSigner")
  else if fs.chmodOk = false then
    (acts ++ [Action.copyBinary, Action.chmod],
     Except.error "Failed to set executable permission")
  else (acts ++ [Action.copyBinary, Action.chmod], Except.ok target)

/-- `ensure_noorsigner_installed` (key_signer.rs lines 114-159): create
`~/.noornote/bin` when absent, then install the bundled binary when absent.
Returns the installed path on success, together with the filesystem actions
performed. -/
def ensure_noorsigner_installed (fs : FsEnv) : List Action × Except String String :=
  match fs.home with
  | Except.error _ => ([], Except.error "Failed to get HOME directory")
  | Except.ok home =>
    let target := home ++ "/.noornote/bin/noorsigner"
    if fs.binDirPresent then ensureAfterDir fs target []
    else if fs.createDirOk then ensureAfterDir fs target [Action.createDir]
    else ([Action.createDir], Except.error "Failed to create directory")

/-- Rust `content.split(':')`: split on every colon; n separators give n+1
fields, empty fields included. -/
def splitColon : List Char → List (List Char)
  | [] => [[]]
  | c :: rest =>
    if c = ':' then [] :: splitColon rest
    else
      match splitColon rest with
      | [] => [[c]]
      | p :: ps => (c :: p) :: ps

/-- Accumulate the numeric value of a digit string (ASCII digits). -/
def digitsToNat (l : List Char) : Nat :=
  l.foldl (fun a c => a * 10 + (c.toNat - 48)) 0

/-- Body of Rust `str::parse::<i64>()` after the optional sign: at least one
ASCII digit, digits only, and the value must fit in an i64. -/
def parseI64Digits (neg : Bool) (digits : List Char) : Option Int :=
  if digits = [] then none
  else if digits.all (fun c => c.isDigit) then
    let m : Int := (digitsToNat digits : Int)
    let v : Int := if neg then -m else m
    if -(2 ^ 63) ≤ v ∧ v ≤ 2 ^ 63 - 1 then some v else none
  else none

/-- Rust `str::parse::<i64>()`: optional leading `+`/`-`, then digits. -/
def parseI64 : List Char → Option Int
  | [] => none
  | '-' :: rest => parseI64Digits true rest
  | '+' :: rest => parseI64Digits false rest
  | l => parseI64Digits false l

/-- The content-level part of `check_trust_session` (key_signer.rs lines
237-253): split the file content on `:`; any field count other than 4 yields
`Ok(false)`; an unparsable second field yields `Err("Invalid expiry
timestamp")`; otherwise the session is valid iff `now < expires_unix`. -/
def check_trust_session_content (content : List Char) (now : Int) :
    Except String Bool :=
  let parts := splitColon content
  if parts.length ≠ 4 then Except.ok false
  else
    match parseI64 (parts.getD 1 []) with
    | none => Except.error "Invalid expiry timestamp"
    | some expires => Except.ok (now < expires)

example : check_trust_session_content ("a:b:c".data) 0 = Except.ok false := by decide
example : check_trust_session_content ("a:xx:c:d".data) 0 =
    Except.error "Invalid expiry timestamp" := by decide
example : check_trust_session_content ("t:100:1:ff".data) 0 = Except.ok true := by decide
example : check_trust_session_content ("t:100:1:ff".data) 100 = Except.ok false := by decide
example : parseI64 "-42".data = some (-42) := by decide
example : parseI64 "9223372036854775808".data = none := by decide

/-- `BufReader::read_line` on the daemon's output stream: consume characters up
to and including the first `\n` (or everything on end of stream). -/
def readLineFrom : List Char → List Char
  | [] => []
  | c :: rest => if c = '\n' then ['\n'] else c :: readLineFrom rest

/-- Rust `char::is_whitespace` (the Unicode White_Space property), used by
`str::trim_end`. -/
def rustIsWhitespace (c : Char) : Bool :=
  c.toNat = 0x09 || c.toNat = 0x0A || c.toNat = 0x0B || c.toNat = 0x0C ||
  c.toNat = 0x0D || c.toNat = 0x20 || c.toNat = 0x85 || c.toNat = 0xA0 ||
  c.toNat = 0x1680 || (0x2000 ≤ c.toNat && c.toNat ≤ 0x200A) ||
  c.toNat = 0x2028 || c.toNat = 0x2029 || c.toNat = 0x202F ||
  c.toNat = 0x205F || c.toNat = 0x3000

/-- Rust `str::trim_end`: drop every trailing whitespace character. -/
def rustTrimEnd (l : List Char) : List Char :=
  (l.reverse.dropWhile rustIsWhitespace).reverse

/-- Inputs of one `key_signer_request` exchange (key_signer.rs lines 162-206):
whether `UnixStream::connect` succeeds, whether `read_line` succeeds (false =
timeout or I/O error), and the character stream the daemon writes back. -/
structure RequestEnv where
  connectOk : Bool
  readOk : Bool
  daemonOutput : List Char

/-- `key_signer_request` (key_signer.rs lines 162-206, Unix build): connect,
send the request plus a newline, read one line of response, and return it with
`trim_end` applied.  The request payload is passed through to the daemon and
does not influence the transformation applied to the response. -/
def key_signer_request (env : RequestEnv) (_request : String) : Except String (List Char) :=
  if env.connectOk = false then
    Except.error "Failed to connect to KeySigner daemon. Is the daemon running?"
  else if env.readOk = false then
    Except.error "Failed to read response"
  else
    Except.ok (rustTrimEnd (readLineFrom env.daemonOutput))

example : key_signer_request ⟨true, true, "ab\n".data⟩ "r" = Except.ok "ab".data := by decide
example : key_signer_request ⟨true, true, "ab \n".data⟩ "r" = Except.ok "ab".data := by decide

/-- State of the daemon endpoint as the outside world sees it: whether the
socket path exists as a file on disk, and whether a live daemon currently
accepts connections there. -/
structure EndpointState where
  socketFileOnDisk : Bool
  acceptsConnections : Bool

/-- The daemon-running check used by the Unix `launch_key_signer`
(key_signer.rs lines 349-350): `socket_path.exists()` — a plain file-existence
test on the socket path. -/
def daemon_already_running (s : EndpointState) : Bool :=
  s.socketFileOnDisk

/-- `is_daemon_running` (key_signer_windows.rs lines 134-142): try to open the
named pipe; opening a named pipe succeeds iff a server currently has the pipe
open, so this is a connection-acceptance test. -/
def is_daemon_running (s : EndpointState) : Bool :=
  s.acceptsConnections

/-- Environment of one `launch_key_signer` invocation (key_signer.rs lines
305-510, Linux build).  `socketAt k` is the result of the k-th
`socket_path.exists()` query: index 0 is the pre-launch check (line 350),
indexes 1.. are the readiness-poll checks.  `pollChecks` is how many poll
iterations run before the 3-second bound expires (nominally 3000 ms / 100 ms =
30; left free because it is wall-clock dependent). -/
structure LaunchEnv where
  fs : FsEnv
  binaryPresentAfterEnsure : Bool
  permsResult : Option String
  trustFile : Option (List Char)
  trustReadErr : Option String
  now : Int
  socketAt : Nat → Bool
  pollChecks : Nat
  spawnDetachedErr : Option String
  termSpawn : String → Bool

/-- `check_trust_session` (key_signer.rs lines 217-254): HOME lookup, file
absence yields `Ok(false)`, a read error propagates, then the content check. -/
def check_trust_session (env : LaunchEnv) : Except String Bool :=
  match env.fs.home with
  | Except.error _ => Except.error "Failed to get HOME directory"
  | Except.ok _ =>
    match env.trustFile with
    | none => Except.ok false
    | some content =>
      match env.trustReadErr with
      | some e => Except.error ("Failed to read trust session: " ++ e)
      | none => check_trust_session_content content env.now

/-- The eligibility value `launch_key_signer` computes at line 346:
`check_trust_session().await.unwrap_or(false)`. -/
def has_trust_session (env : LaunchEnv) : Bool :=
  match check_trust_session env with
  | Except.ok b => b
  | Except.error _ => false

/-- The readiness-poll loop (key_signer.rs lines 390-399): perform up to `fuel`
`socket_path.exists()` checks starting at query index `k`, sleeping 100 ms
between checks; true iff some check observes the socket. -/
def pollSocket (socketAt : Nat → Bool) : Nat → Nat → Bool
  | 0, _ => false
  | fuel + 1, k => socketAt k || pollSocket socketAt fuel (k + 1)

/-- Poll interval of the readiness loop, in milliseconds (line 398). -/
def pollIntervalMs : Nat := 100

/-- Total bound of the readiness loop, in milliseconds (line 391). -/
def pollTimeoutMs : Nat := 3000

/-- The ordered list of terminal emulators the Linux interactive branch tries
(key_signer.rs line 467). -/
def terminals : List String := ["gnome-terminal", "konsole", "xterm"]

/-- The Linux terminal loop (key_signer.rs lines 470-489): spawn each emulator
in order, stop at the first success; returns the spawn attempts made and
whether any succeeded. -/
def tryTerminals (spawn : String → Bool) : List String → List Action × Bool
  | [] => ([], false)
  | t :: rest =>
    if spawn t then ([Action.spawnTerminal t], true)
    else
      let r := tryTerminals spawn rest
      (Action.spawnTerminal t :: r.1, r.2)

/-- Error returned when no terminal emulator spawns (key_signer.rs line 492). -/
def noTerminalMsg : String :=
  "No terminal emulator found. Please install gnome-terminal, konsole, or xterm."

/-- The interactive branch of `launch_key_signer` (key_signer.rs lines
464-494, Linux build): try the terminal emulators in order; success iff one of
them spawned. -/
def interactiveStage (env : LaunchEnv) (acts : List Action) : List Action × Except String Unit :=
  let t := tryTerminals env.termSpawn terminals
  (acts ++ t.1, if t.2 then Except.ok () else Except.error noTerminalMsg)

/-- The silent background branch of `launch_key_signer` (key_signer.rs lines
357-417): detached spawn (an error propagates immediately), readiness poll,
and on poll timeout the HOME lookup, best-effort deletion of the trust-session
file when present, then fall-through to the interactive branch. -/
def silentStage (env : LaunchEnv) (acts : List Action) : List Action × Except String Unit :=
  match env.spawnDetachedErr with
  | some e =>
    (acts ++ [Action.spawnDetached],
     Except.error ("Failed to launch NoorSigner in background: " ++ e))
  | none =>
    if pollSocket env.socketAt env.pollChecks 1 then
      (acts ++ [Action.spawnDetached], Except.ok ())
    else
      match env.fs.home with
      | Except.error _ =>
        (acts ++ [Action.spawnDetached], Except.error "Failed to get HOME directory")
      | Except.ok _ =>
        let delActs := if env.trustFile.isSome then [Action.deleteTrustSession] else []
        let t := tryTerminals env.termSpawn terminals
        (acts ++ Action.spawnDetached :: (delActs ++ t.1),
         if t.2 then Except.ok () else Except.error noTerminalMsg)

/-- The mode validation of `launch_key_signer` (key_signer.rs lines 335-340):
only `init`, `daemon`, `add-account` are accepted. -/
def commandOfMode (mode : String) : Option String :=
  if mode = "init" then some "init"
  else if mode = "daemon" then some "daemon"
  else if mode = "add-account" then some "add-account"
  else none

/-- `launch_key_signer` (key_signer.rs lines 305-510, Linux build): run
`ensure_noorsigner_installed`, resolve the binary path (HOME), verify the
binary exists, set its permissions, validate the mode, then either take the
silent background branch (valid trust session, socket file absent, mode
`daemon`) or the interactive terminal branch. -/
def launch_key_signer (env : LaunchEnv) (mode : String) : List Action × Except String Unit :=
  let ens := ensure_noorsigner_installed env.fs
  match ens.2 with
  | Except.error e => (ens.1, Except.error e)
  | Except.ok _ =>
    match env.fs.home with
    | Except.error e => (ens.1, Except.error e)
    | Except.ok home =>
      if env.binaryPresentAfterEnsure = false then
        (ens.1,
         Except.error ("NoorSigner binary not found at: " ++ home ++ "/.noornote/bin/noorsigner"))
      else
        match env.permsResult with
        | some e => (ens.1, Except.error e)
        | none =>
          match commandOfMode mode with
          | none => (ens.1, Except.error ("Invalid mode: " ++ mode))
          | some _ =>
            if has_trust_session env && !env.socketAt 0 && (mode == "daemon") then
              silentStage env ens.1
            else
              interactiveStage env ens.1

/-- Inputs of the Windows interactive branch: outcomes of the three spawn
attempts and of the batch-file write (key_signer_windows.rs lines 220-253). -/
structure WinTermEnv where
  spawnAOk : Bool
  spawnBOk : Bool
  batWriteOk : Bool
  spawnCOk : Bool

/-- One attempted step of the Windows interactive branch, recording whether
that step's OS call succeeded (the source discards each result). -/
inductive WinAttempt where
  | varA (ok : Bool)
  | varB (ok : Bool)
  | batFile (written : Bool)
  | varC (ok : Bool)
  deriving DecidableEq, Repr

/-- The Windows interactive branch of `launch_key_signer`
(key_signer_windows.rs lines 220-253): three launch variants are attempted,
every spawn result is discarded with `let _ =`, and the function returns
`Ok(())` unconditionally. -/
def launch_terminal_windows (w : WinTermEnv) : List WinAttempt × Except String Unit :=
  let a := [WinAttempt.varA w.spawnAOk, WinAttempt.varB w.spawnBOk,
            WinAttempt.batFile w.batWriteOk]
  let a := if w.batWriteOk then a ++ [WinAttempt.varC w.spawnCOk] else a
  (a, Except.ok ())

/-! ### Helper lemmas about the embedding -/

/-- Every action the installer performs is a filesystem-installation action. -/
lemma ensure_acts_cases (fs : FsEnv) :
    ∀ a ∈ (ensure_noorsigner_installed fs).1,
      a = Action.createDir ∨ a = Action.copyBinary ∨ a = Action.chmod := by
  intro a ha
  unfold ensure_noorsigner_installed ensureAfterDir at ha
  rcases fs with ⟨home, d, cd, bi, sf, co, ch⟩
  cases home <;> simp_all <;> split_ifs at ha <;> simp_all <;> tauto

/-- If the installer succeeded, the HOME lookup succeeded. -/
lemma ensure_ok_home {fs : FsEnv} {p : String}
    (h : (ensure_noorsigner_installed fs).2 = Except.ok p) :
    ∃ home, fs.home = Except.ok home := by
  rcases hh : fs.home with e | home
  · unfold ensure_noorsigner_installed at h
    rw [hh] at h
    simp at h
  · exact ⟨home, rfl⟩

/-- Every action recorded by the terminal loop is a terminal-spawn attempt. -/
lemma tryTerminals_acts_cases (spawn : String → Bool) :
    ∀ l, ∀ a ∈ (tryTerminals spawn l).1, ∃ t, a = Action.spawnTerminal t := by
  intro l
  induction l with
  | nil => intro a ha; simp [tryTerminals] at ha
  | cons t rest ih =>
    intro a ha
    unfold tryTerminals at ha
    by_cases hs : spawn t = true
    · simp [hs] at ha
      exact ⟨t, ha⟩
    · simp [hs] at ha
      rcases ha with ha | ha
      · exact ⟨t, ha⟩
      · exact ih a ha

/-- The terminal loop always records its first attempt first. -/
lemma tryTerminals_head (spawn : String → Bool) (t : String) (rest : List String) :
    ((tryTerminals spawn (t :: rest)).1).head? = some (Action.spawnTerminal t) := by
  unfold tryTerminals
  by_cases hs : spawn t = true <;> simp [hs]

/-- The terminal loop over the fixed Linux list succeeds iff some emulator
spawns. -/
lemma tryTerminals_linux (spawn : String → Bool) :
    (tryTerminals spawn terminals).2 =
      (spawn "gnome-terminal" || spawn "konsole" || spawn "xterm") := by
  cases h1 : spawn "gnome-terminal" <;> cases h2 : spawn "konsole" <;>
    cases h3 : spawn "xterm" <;> simp [tryTerminals, terminals, h1, h2, h3]

/-- A poll over a socket query that never sees the socket returns false. -/
lemma pollSocket_false {socketAt : Nat → Bool} (h : ∀ k, socketAt k = false) :
    ∀ fuel k, pollSocket socketAt fuel k = false := by
  intro fuel
  induction fuel with
  | zero => intro k; rfl
  | succ n ih => intro k; simp [pollSocket, h k, ih]

/-- A true eligibility value implies HOME resolved and a trust file present. -/
lemma has_trust_session_true_elim {env : LaunchEnv}
    (h : has_trust_session env = true) :
    (∃ home, env.fs.home = Except.ok home) ∧ env.trustFile.isSome = true := by
  unfold has_trust_session check_trust_session at h
  rcases hh : env.fs.home with e | home
  · rw [hh] at h; simp at h
  · rcases ht : env.trustFile with _ | content
    · rw [hh, ht] at h; simp at h
    · exact ⟨⟨home, rfl⟩, by simp [ht]⟩

lemma commandOfMode_daemon : commandOfMode "daemon" = some "daemon" := by decide

lemma commandOfMode_init : commandOfMode "init" = some "init" := by decide

lemma beq_daemon_daemon : ("daemon" == "daemon") = true := by decide

lemma beq_init_daemon : ("init" == "daemon") = false := by decide

lemma commandOfMode_none {mode : String} (h1 : mode ≠ "init") (h2 : mode ≠ "daemon")
    (h3 : mode ≠ "add-account") : commandOfMode mode = none := by
  simp [commandOfMode, h1, h2, h3]

/-- Once installation, path resolution, binary check, permission setting and
mode validation succeed, `launch_key_signer` is the eligibility-gated choice
between the silent and the interactive branch. -/
lemma launch_eval {env : LaunchEnv} {mode : String} {p home c : String}
    (hp : (ensure_noorsigner_installed env.fs).2 = Except.ok p)
    (hh : env.fs.home = Except.ok home)
    (hBin : env.binaryPresentAfterEnsure = true)
    (hPerms : env.permsResult = none)
    (hc : commandOfMode mode = some c) :
    launch_key_signer env mode =
      if has_trust_session env && !env.socketAt 0 && (mode == "daemon")
      then silentStage env (ensure_noorsigner_installed env.fs).1
      else interactiveStage env (ensure_noorsigner_installed env.fs).1 := by
  unfold launch_key_signer
  simp only [hp, hh, hBin, hPerms, hc]
  simp

/-- The silent branch on poll timeout: spawn, delete the (present) trust file,
then run the terminal loop. -/
lemma silentStage_timeout_eq {env : LaunchEnv} (acts : List Action) {home : String}
    (hSpawn : env.spawnDetachedErr = none)
    (hPoll : pollSocket env.socketAt env.pollChecks 1 = false)
    (hh : env.fs.home = Except.ok home)
    (hFile : env.trustFile.isSome = true) :
    silentStage env acts =
      (acts ++ Action.spawnDetached :: Action.deleteTrustSession ::
        (tryTerminals env.termSpawn terminals).1,
       if (tryTerminals env.termSpawn terminals).2 then Except.ok ()
       else Except.error noTerminalMsg) := by
  unfold silentStage
  simp only [hSpawn, hPoll, hh, hFile]
  simp

lemma ensure_delete_not_mem (fs : FsEnv) :
    Action.deleteTrustSession ∉ (ensure_noorsigner_installed fs).1 := by
  intro h
  rcases ensure_acts_cases fs _ h with h' | h' | h' <;> simp at h'

lemma ensure_spawnDetached_not_mem (fs : FsEnv) :
    Action.spawnDetached ∉ (ensure_noorsigner_installed fs).1 := by
  intro h
  rcases ensure_acts_cases fs _ h with h' | h' | h' <;> simp at h'

lemma ensure_spawnTerminal_not_mem (fs : FsEnv) (t : String) :
    Action.spawnTerminal t ∉ (ensure_noorsigner_installed fs).1 := by
  intro h
  rcases ensure_acts_cases fs _ h with h' | h' | h' <;> simp at h'

lemma tryTerminals_delete_not_mem (spawn : String → Bool) (l : List String) :
    Action.deleteTrustSession ∉ (tryTerminals spawn l).1 := by
  intro h
  rcases tryTerminals_acts_cases spawn l _ h with ⟨t, ht⟩
  simp at ht

lemma tryTerminals_spawnDetached_not_mem (spawn : String → Bool) (l : List String) :
    Action.spawnDetached ∉ (tryTerminals spawn l).1 := by
  intro h
  rcases tryTerminals_acts_cases spawn l _ h with ⟨t, ht⟩
  simp at ht

/-- Reading one line from a terminator-free payload followed by a newline
consumes exactly the payload and the newline. -/
lemma readLineFrom_append_nl {p : List Char} (h : '\n' ∉ p) :
    readLineFrom (p ++ ['\n']) = p ++ ['\n'] := by
  induction p with
  | nil => rfl
  | cons c rest ih =>
    have hc : c ≠ '\n' := fun hc => h (hc ▸ List.mem_cons_self c rest)
    have hrest : '\n' ∉ rest := fun hr => h (List.mem_cons_of_mem c hr)
    simp [readLineFrom, hc, ih hrest]

lemma rustIsWhitespace_nl : rustIsWhitespace '\n' = true := by decide

/-- `trim_end` absorbs the trailing newline. -/
lemma rustTrimEnd_append_nl (p : List Char) :
    rustTrimEnd (p ++ ['\n']) = rustTrimEnd p := by
  unfold rustTrimEnd
  rw [List.reverse_append]
  simp [List.dropWhile_cons, rustIsWhitespace_nl]

/-- `trim_end` is the identity on a list whose last character is not
whitespace. -/
lemma rustTrimEnd_of_last_not_ws {p : List Char}
    (h : ∀ c, p.getLast? = some c → rustIsWhitespace c = false) :
    rustTrimEnd p = p := by
  unfold rustTrimEnd
  rcases hr : p.reverse with _ | ⟨c, tl⟩
  · simp [List.reverse_eq_nil_iff.mp hr]
  · have hc : p.getLast? = some c := by
      rw [← List.head?_reverse, hr]; rfl
    rw [List.dropWhile_cons, h c hc]
    simp [← hr]

/-! ### Concrete environments used as witnesses and counterexamples -/

/-- A filesystem in which NoorSigner is already fully installed. -/
def fsInstalled : FsEnv :=
  { home := Except.ok "/home/u", binDirPresent := true, createDirOk := true,
    binaryInstalled := true, sidecarFound := true, copyOk := true, chmodOk := true }

/-- A filesystem before the first install: the bin directory and the binary
are absent, the bundled sidecar is available, and every step succeeds. -/
def fsFreshInstall : FsEnv :=
  { home := Except.ok "/home/u", binDirPresent := false, createDirOk := true,
    binaryInstalled := false, sidecarFound := true, copyOk := true, chmodOk := true }

/-! ### Claims -/

/-- **C2, counterexample.** The response payload `['a', ' ']` followed by one
terminator is NOT returned unchanged: `trim_end` also strips the payload's own
trailing space, so the claim "only the trailing terminator removed and no
other byte altered, added, or removed" fails at this input (the function
actually returns `['a']`). -/
theorem request_trailing_space_not_preserved :
    key_signer_request ⟨true, true, ['a', ' ', '\n']⟩ "req" ≠ Except.ok ['a', ' '] ∧
    key_signer_request ⟨true, true, ['a', ' ', '\n']⟩ "req" = Except.ok ['a'] := by
  constructor
  · decide
  · decide

/-- **C2, amended.** For a response written as a payload plus exactly one
terminator, `key_signer_request` returns the payload with ALL trailing
whitespace stripped (the terminator together with any trailing whitespace of
the payload itself); the payload is returned byte-for-byte exactly when it
contains no interior terminator and does not end in a whitespace character. -/
theorem request_roundtrip_trim_amended (payload : List Char) (req : String)
    (hnl : '\n' ∉ payload) :
    key_signer_request ⟨true, true, payload ++ ['\n']⟩ req =
      Except.ok (rustTrimEnd payload) ∧
    ((∀ c, payload.getLast? = some c → rustIsWhitespace c = false) →
      key_signer_request ⟨true, true, payload ++ ['\n']⟩ req = Except.ok payload) := by
  have hbase : key_signer_request ⟨true, true, payload ++ ['\n']⟩ req =
      Except.ok (rustTrimEnd payload) := by
    unfold key_signer_request
    simp [readLineFrom_append_nl hnl, rustTrimEnd_append_nl]
  exact ⟨hbase, fun hws => by rw [hbase, rustTrimEnd_of_last_not_ws hws]⟩

/-- **C2, witness** for the amended theorem at the payload `"abc"`. -/
theorem request_roundtrip_trim_amended_witness :
    key_signer_request ⟨true, true, "abc".data ++ ['\n']⟩ "ping" = Except.ok "abc".data :=
  (request_roundtrip_trim_amended "abc".data "ping" (by decide)).2
    (fun c hc => by
      have : c = 'c' := by
        simpa using hc.symm.trans (by decide : ("abc".data.getLast? = some 'c'))
      simp [this]; decide)

/-- **C7.** The trust-session content check returns valid only when the
content has exactly four `:`-separated fields and the parsed `expires_at` is
strictly in the future; any other field count yields false, and
`expires_at <= now` yields invalid regardless of the other fields. -/
theorem trust_session_validity_conditions (content : List Char) (now : Int) :
    (check_trust_session_content content now = Except.ok true →
      (splitColon content).length = 4 ∧
      ∃ e, parseI64 ((splitColon content).getD 1 []) = some e ∧ now < e) ∧
    ((splitColon content).length ≠ 4 →
      check_trust_session_content content now = Except.ok false) ∧
    (∀ e, parseI64 ((splitColon content).getD 1 []) = some e → e ≤ now →
      check_trust_session_content content now = Except.ok false) := by
  refine ⟨?_, ?_, ?_⟩
  · intro h
    unfold check_trust_session_content at h
    by_cases hlen : (splitColon content).length = 4
    · refine ⟨hlen, ?_⟩
      rw [if_neg (by simp [hlen])] at h
      rcases hp : parseI64 ((splitColon content).getD 1 []) with _ | e
      · rw [hp] at h; simp at h
      · rw [hp] at h
        simp at h
        exact ⟨e, rfl, h⟩
    · rw [if_pos (by simpa using hlen)] at h
      simp at h
  · intro hlen
    unfold check_trust_session_content
    rw [if_pos (by simpa using hlen)]
  · intro e he hle
    unfold check_trust_session_content
    by_cases hlen : (splitColon content).length = 4
    · rw [if_neg (by simp [hlen]), he]
      simp [not_lt.mpr hle]
    · rw [if_pos (by simpa using hlen)]

/-- **C7, witness**: a three-field content is rejected, and a four-field
content whose expiry equals `now` is invalid regardless of the other fields. -/
theorem trust_session_validity_conditions_witness :
    check_trust_session_content "a:b:c".data 0 = Except.ok false ∧
    check_trust_session_content "t:50:1:ff".data 50 = Except.ok false :=
  ⟨(trust_session_validity_conditions "a:b:c".data 0).2.1 (by decide),
   (trust_session_validity_conditions "t:50:1:ff".data 50).2.2 50 (by decide) (by decide)⟩

/-- Launch environment whose trust-session file has four fields but an
unparsable second field. -/
def envMalformedExpiry : LaunchEnv :=
  { fs := fsInstalled, binaryPresentAfterEnsure := true, permsResult := none,
    trustFile := some "a:xx:c:d".data, trustReadErr := none, now := 0,
    socketAt := fun _ => false, pollChecks := 30, spawnDetachedErr := none,
    termSpawn := fun _ => true }

/-- **C3, counterexample.** On a four-field trust-session file whose second
field `xx` does not parse, `check_trust_session` does NOT return false: it
returns the error `Invalid expiry timestamp`. -/
theorem check_trust_session_unparsable_expiry_errs :
    check_trust_session envMalformedExpiry ≠ Except.ok false ∧
    check_trust_session envMalformedExpiry = Except.error "Invalid expiry timestamp" := by
  constructor
  · decide
  · decide

/-- **C3, amended.** A four-field trust-session file whose second field does
not parse as an integer makes `check_trust_session` return the error
`Invalid expiry timestamp` (not false); the caller `launch_key_signer`
collapses this error to false via `unwrap_or(false)`, so the eligibility value
still treats it as "no session". -/
theorem trust_session_unparsable_expiry_amended (env : LaunchEnv) (content : List Char)
    (hHome : ∃ h, env.fs.home = Except.ok h)
    (hFile : env.trustFile = some content)
    (hRead : env.trustReadErr = none)
    (hLen : (splitColon content).length = 4)
    (hParse : parseI64 ((splitColon content).getD 1 []) = none) :
    check_trust_session env = Except.error "Invalid expiry timestamp" ∧
    has_trust_session env = false := by
  obtain ⟨h, hh⟩ := hHome
  have hcheck : check_trust_session env = Except.error "Invalid expiry timestamp" := by
    have hb : 1 < (splitColon content).length := by rw [hLen]; omega
    rw [List.getD_eq_getElem _ _ hb] at hParse
    simp [check_trust_session, check_trust_session_content, hh, hFile, hRead, hLen, hParse]
  exact ⟨hcheck, by unfold has_trust_session; rw [hcheck]⟩

/-- **C3, witness** for the amended theorem at the content `a:xx:c:d`. -/
theorem trust_session_unparsable_expiry_amended_witness :
    check_trust_session envMalformedExpiry = Except.error "Invalid expiry timestamp" ∧
    has_trust_session envMalformedExpiry = false :=
  trust_session_unparsable_expiry_amended envMalformedExpiry "a:xx:c:d".data
    ⟨"/home/u", rfl⟩ rfl rfl (by decide) (by decide)

/-- **C4, counterexample.** In a state where the socket path exists on disk
but no listener accepts connections, the Unix daemon-running check used by
`launch_key_signer` returns true, not false as the claim requires. -/
theorem daemon_check_stale_socket_true :
    daemon_already_running
        { socketFileOnDisk := true, acceptsConnections := false } ≠ false ∧
    daemon_already_running
        { socketFileOnDisk := true, acceptsConnections := false } = true := by
  constructor
  · decide
  · decide

/-- **C4, amended.** The Windows check `is_daemon_running` is a
connection-acceptance test (opening the named pipe), but the check used by the
Unix `launch_key_signer` is only a file-existence test on the socket path;
consequently, whenever the socket file exists on disk — live listener or not —
the orchestrator treats the daemon as running and never performs the detached
background spawn. -/
theorem daemon_running_check_amended :
    (∀ s : EndpointState, daemon_already_running s = s.socketFileOnDisk) ∧
    (∀ s : EndpointState, is_daemon_running s = s.acceptsConnections) ∧
    (∀ env : LaunchEnv, env.socketAt 0 = true →
      Action.spawnDetached ∉ (launch_key_signer env "daemon").1) := by
  refine ⟨fun s => rfl, fun s => rfl, fun env hS hmem => ?_⟩
  rcases hp : (ensure_noorsigner_installed env.fs).2 with e | p
  · simp only [launch_key_signer, hp] at hmem
    exact ensure_spawnDetached_not_mem env.fs hmem
  · rcases hh : env.fs.home with e' | home
    · simp only [launch_key_signer, hp, hh] at hmem
      exact ensure_spawnDetached_not_mem env.fs hmem
    · by_cases hb : env.binaryPresentAfterEnsure = false
      · simp only [launch_key_signer, hp, hh, hb, if_pos] at hmem
        exact ensure_spawnDetached_not_mem env.fs hmem
      · rcases hpr : env.permsResult with _ | e''
        · simp only [launch_key_signer, hp, hh, hpr, if_neg hb, commandOfMode_daemon,
            hS, Bool.not_true, Bool.and_false, Bool.false_and, Bool.false_eq_true,
            if_false, interactiveStage] at hmem
          rcases List.mem_append.mp hmem with hm | hm
          · exact ensure_spawnDetached_not_mem env.fs hm
          · exact tryTerminals_spawnDetached_not_mem env.termSpawn terminals hm
        · simp only [launch_key_signer, hp, hh, hpr, if_neg hb] at hmem
          exact ensure_spawnDetached_not_mem env.fs hmem

/-- Launch environment with a stale socket file (file on disk, poll function
constantly true) and a valid trust session. -/
def envStaleSocket : LaunchEnv :=
  { fs := fsInstalled, binaryPresentAfterEnsure := true, permsResult := none,
    trustFile := some "tok:100:1:ab".data, trustReadErr := none, now := 0,
    socketAt := fun _ => true, pollChecks := 30, spawnDetachedErr := none,
    termSpawn := fun _ => true }

/-- **C4, witness** for the amended theorem: with the socket file present, no
detached spawn happens even though the trust session is valid. -/
theorem daemon_running_check_amended_witness :
    Action.spawnDetached ∉ (launch_key_signer envStaleSocket "daemon").1 :=
  daemon_running_check_amended.2.2 envStaleSocket rfl

/-- Launch environment in which the daemon is already detected as running at
the eligibility check (socket file present), with a valid trust session and a
working terminal emulator. -/
def envAlreadyRunning : LaunchEnv :=
  { fs := fsInstalled, binaryPresentAfterEnsure := true, permsResult := none,
    trustFile := some "tok:100:1:ab".data, trustReadErr := none, now := 0,
    socketAt := fun _ => true, pollChecks := 30, spawnDetachedErr := none,
    termSpawn := fun _ => true }

/-- **C1 (code bug).** When the daemon is already detected as running at the
eligibility check, `launch_key_signer` does NOT return success without
spawning: it falls through to the interactive branch and spawns a terminal
host.  (The code's own comment says "If daemon is already running, no need to
launch again", and the fall-through comment lists only "no trust session, init
mode, or background launch failed" — the already-running case was not meant to
reach the terminal branch.) -/
theorem launch_daemon_already_running_spawns_terminal :
    launch_key_signer envAlreadyRunning "daemon" =
      ([Action.spawnTerminal "gnome-terminal"], Except.ok ()) ∧
    Action.spawnTerminal "gnome-terminal" ∈
      (launch_key_signer envAlreadyRunning "daemon").1 := by
  constructor
  · decide
  · decide

/-- **C5.** On the silent background path (valid trust session, daemon not
running, detached spawn succeeded) with a readiness poll that never observes
the daemon live, the trace deletes the trust-session file exactly once and
then attempts the interactive terminal launch (whose first recorded attempt is
the first terminal emulator). -/
theorem silent_timeout_invalidates_once_then_interactive (env : LaunchEnv)
    (hEnsure : ∃ p, (ensure_noorsigner_installed env.fs).2 = Except.ok p)
    (hBin : env.binaryPresentAfterEnsure = true)
    (hPerms : env.permsResult = none)
    (hTrust : has_trust_session env = true)
    (hSock : ∀ k, env.socketAt k = false)
    (hSpawn : env.spawnDetachedErr = none) :
    (launch_key_signer env "daemon").1 =
      (ensure_noorsigner_installed env.fs).1 ++
        Action.spawnDetached :: Action.deleteTrustSession ::
          (tryTerminals env.termSpawn terminals).1 ∧
    (launch_key_signer env "daemon").1.count Action.deleteTrustSession = 1 ∧
    ((tryTerminals env.termSpawn terminals).1).head? =
      some (Action.spawnTerminal "gnome-terminal") := by
  obtain ⟨p, hp⟩ := hEnsure
  obtain ⟨⟨home, hh⟩, hFile⟩ := has_trust_session_true_elim hTrust
  have hPoll : pollSocket env.socketAt env.pollChecks 1 = false :=
    pollSocket_false hSock _ _
  have heval := launch_eval hp hh hBin hPerms commandOfMode_daemon
  rw [hTrust, hSock 0, beq_daemon_daemon] at heval
  simp only [Bool.not_false, Bool.and_true, Bool.true_and, if_true] at heval
  have hsil := silentStage_timeout_eq
    (ensure_noorsigner_installed env.fs).1 hSpawn hPoll hh hFile
  rw [heval, hsil]
  refine ⟨rfl, ?_, ?_⟩
  · simp [List.count_append, List.count_cons,
      List.count_eq_zero.mpr (ensure_delete_not_mem env.fs),
      List.count_eq_zero.mpr (tryTerminals_delete_not_mem env.termSpawn terminals)]
  · exact tryTerminals_head env.termSpawn "gnome-terminal" ["konsole", "xterm"]

/-- Launch environment for the silent-timeout path: valid trust session, no
socket ever appears, detached spawn succeeds, terminals available. -/
def envSilentTimeout : LaunchEnv :=
  { fs := fsInstalled, binaryPresentAfterEnsure := true, permsResult := none,
    trustFile := some "tok:100:1:ab".data, trustReadErr := none, now := 0,
    socketAt := fun _ => false, pollChecks := 30, spawnDetachedErr := none,
    termSpawn := fun _ => true }

/-- **C5, witness**: the concrete silent-timeout run deletes the trust session
exactly once. -/
theorem silent_timeout_invalidates_once_then_interactive_witness :
    (launch_key_signer envSilentTimeout "daemon").1.count Action.deleteTrustSession = 1 :=
  (silent_timeout_invalidates_once_then_interactive envSilentTimeout
    ⟨"/home/u/.noornote/bin/noorsigner", by decide⟩ rfl rfl (by decide)
    (fun _ => rfl) rfl).2.1

/-- **C8.** On the silent background path, if the detached spawn call itself
fails, `launch_key_signer` returns that error immediately: the trace contains
no trust-session deletion and no terminal-spawn attempt. -/
theorem silent_spawn_failure_immediate_error (env : LaunchEnv) (e : String)
    (hEnsure : ∃ p, (ensure_noorsigner_installed env.fs).2 = Except.ok p)
    (hBin : env.binaryPresentAfterEnsure = true)
    (hPerms : env.permsResult = none)
    (hTrust : has_trust_session env = true)
    (hSock0 : env.socketAt 0 = false)
    (hSpawn : env.spawnDetachedErr = some e) :
    launch_key_signer env "daemon" =
      ((ensure_noorsigner_installed env.fs).1 ++ [Action.spawnDetached],
       Except.error ("Failed to launch NoorSigner in background: " ++ e)) ∧
    Action.deleteTrustSession ∉ (launch_key_signer env "daemon").1 ∧
    (∀ t, Action.spawnTerminal t ∉ (launch_key_signer env "daemon").1) := by
  obtain ⟨p, hp⟩ := hEnsure
  obtain ⟨⟨home, hh⟩, _⟩ := has_trust_session_true_elim hTrust
  have heval := launch_eval hp hh hBin hPerms commandOfMode_daemon
  rw [hTrust, hSock0, beq_daemon_daemon] at heval
  simp only [Bool.not_false, Bool.and_true, Bool.true_and, if_true] at heval
  have hsil : silentStage env (ensure_noorsigner_installed env.fs).1 =
      ((ensure_noorsigner_installed env.fs).1 ++ [Action.spawnDetached],
       Except.error ("Failed to launch NoorSigner in background: " ++ e)) := by
    unfold silentStage
    rw [hSpawn]
  rw [heval, hsil]
  refine ⟨rfl, fun hmem => ?_, fun t hmem => ?_⟩
  · rcases List.mem_append.mp hmem with hm | hm
    · exact ensure_delete_not_mem env.fs hm
    · simp at hm
  · rcases List.mem_append.mp hmem with hm | hm
    · exact ensure_spawnTerminal_not_mem env.fs t hm
    · simp at hm

/-- Launch environment in which the detached spawn itself fails. -/
def envSpawnFails : LaunchEnv :=
  { fs := fsInstalled, binaryPresentAfterEnsure := true, permsResult := none,
    trustFile := some "tok:100:1:ab".data, trustReadErr := none, now := 0,
    socketAt := fun _ => false, pollChecks := 30,
    spawnDetachedErr := some "No such file or directory",
    termSpawn := fun _ => true }

/-- **C8, witness** at a concrete environment whose detached spawn fails. -/
theorem silent_spawn_failure_immediate_error_witness :
    Action.deleteTrustSession ∉ (launch_key_signer envSpawnFails "daemon").1 :=
  (silent_spawn_failure_immediate_error envSpawnFails "No such file or directory"
    ⟨"/home/u/.noornote/bin/noorsigner", by decide⟩ rfl rfl (by decide) rfl rfl).2.1

/-- **C9.** When the silent background launch succeeds (the socket is observed
within the poll bound), `launch_key_signer` returns success and the trace
contains no deletion of the trust-session file (and no action touching it at
all: the only actions are the installer's and the detached spawn). -/
theorem silent_success_preserves_trust_session (env : LaunchEnv)
    (hEnsure : ∃ p, (ensure_noorsigner_installed env.fs).2 = Except.ok p)
    (hBin : env.binaryPresentAfterEnsure = true)
    (hPerms : env.permsResult = none)
    (hTrust : has_trust_session env = true)
    (hSock0 : env.socketAt 0 = false)
    (hSpawn : env.spawnDetachedErr = none)
    (hPoll : pollSocket env.socketAt env.pollChecks 1 = true) :
    launch_key_signer env "daemon" =
      ((ensure_noorsigner_installed env.fs).1 ++ [Action.spawnDetached],
       Except.ok ()) ∧
    Action.deleteTrustSession ∉ (launch_key_signer env "daemon").1 := by
  obtain ⟨p, hp⟩ := hEnsure
  obtain ⟨⟨home, hh⟩, _⟩ := has_trust_session_true_elim hTrust
  have heval := launch_eval hp hh hBin hPerms commandOfMode_daemon
  rw [hTrust, hSock0, beq_daemon_daemon] at heval
  simp only [Bool.not_false, Bool.and_true, Bool.true_and, if_true] at heval
  have hsil : silentStage env (ensure_noorsigner_installed env.fs).1 =
      ((ensure_noorsigner_installed env.fs).1 ++ [Action.spawnDetached],
       Except.ok ()) := by
    unfold silentStage
    rw [hSpawn, hPoll]
    simp
  rw [heval, hsil]
  refine ⟨rfl, fun hmem => ?_⟩
  rcases List.mem_append.mp hmem with hm | hm
  · exact ensure_delete_not_mem env.fs hm
  · simp at hm

/-- Launch environment where the daemon comes up at the first poll check. -/
def envSilentSuccess : LaunchEnv :=
  { fs := fsInstalled, binaryPresentAfterEnsure := true, permsResult := none,
    trustFile := some "tok:100:1:ab".data, trustReadErr := none, now := 0,
    socketAt := fun k => decide (0 < k), pollChecks := 30,
    spawnDetachedErr := none, termSpawn := fun _ => true }

/-- **C9, witness** at a concrete environment where the poll sees the socket. -/
theorem silent_success_preserves_trust_session_witness :
    launch_key_signer envSilentSuccess "daemon" =
      ((ensure_noorsigner_installed envSilentSuccess.fs).1 ++ [Action.spawnDetached],
       Except.ok ()) :=
  (silent_success_preserves_trust_session envSilentSuccess
    ⟨"/home/u/.noornote/bin/noorsigner", by decide⟩ rfl rfl (by decide) (by decide)
    rfl (by decide)).1

/-- **C6, counterexample.** The Windows interactive branch returns success
even when every terminal-host launch attempt fails (all spawn outcomes false),
contradicting "if no terminal host can be started, the call fails". -/
theorem windows_interactive_all_fail_still_ok :
    (launch_terminal_windows ⟨false, false, false, false⟩).2 = Except.ok () ∧
    (launch_terminal_windows ⟨false, false, false, false⟩).1 =
      [WinAttempt.varA false, WinAttempt.varB false, WinAttempt.batFile false] := by
  constructor
  · decide
  · decide

/-- **C6, amended.** On Linux, an execution reaching the interactive step
fails iff none of the ordered terminal emulators (gnome-terminal, konsole,
xterm) can be started; on Windows, however, the interactive branch discards
every spawn outcome and reports success unconditionally, so "no host could be
started" is not a failure there. -/
theorem interactive_failure_amended :
    (∀ env : LaunchEnv,
      (∃ p, (ensure_noorsigner_installed env.fs).2 = Except.ok p) →
      env.binaryPresentAfterEnsure = true → env.permsResult = none →
      ((launch_key_signer env "init").2 = Except.ok () ↔
        (env.termSpawn "gnome-terminal" = true ∨ env.termSpawn "konsole" = true ∨
         env.termSpawn "xterm" = true))) ∧
    (∀ w : WinTermEnv, (launch_terminal_windows w).2 = Except.ok ()) := by
  constructor
  · intro env hEnsure hBin hPerms
    obtain ⟨p, hp⟩ := hEnsure
    obtain ⟨home, hh⟩ := ensure_ok_home hp
    have heval := launch_eval hp hh hBin hPerms commandOfMode_init
    rw [beq_init_daemon] at heval
    simp only [Bool.and_false, Bool.false_eq_true, if_false] at heval
    rw [heval]
    unfold interactiveStage
    rcases h1 : env.termSpawn "gnome-terminal" <;>
      rcases h2 : env.termSpawn "konsole" <;>
      rcases h3 : env.termSpawn "xterm" <;>
      simp [tryTerminals_linux, h1, h2, h3]
  · intro w
    unfold launch_terminal_windows
    by_cases hb : w.batWriteOk <;> simp [hb]

/-- Launch environment in which no terminal emulator can be started. -/
def envNoTerminal : LaunchEnv :=
  { fs := fsInstalled, binaryPresentAfterEnsure := true, permsResult := none,
    trustFile := none, trustReadErr := none, now := 0,
    socketAt := fun _ => false, pollChecks := 30, spawnDetachedErr := none,
    termSpawn := fun _ => false }

/-- **C6, witness**: on Linux the call fails when no emulator starts; on
Windows the branch still reports success with a failing spawn outcome. -/
theorem interactive_failure_amended_witness :
    (launch_key_signer envNoTerminal "init").2 ≠ Except.ok () ∧
    (launch_terminal_windows ⟨false, true, false, true⟩).2 = Except.ok () := by
  constructor
  · intro h
    rcases (interactive_failure_amended.1 envNoTerminal
        ⟨"/home/u/.noornote/bin/noorsigner", by decide⟩ rfl rfl).mp h with
      h1 | h1 | h1 <;> simp [envNoTerminal] at h1
  · exact interactive_failure_amended.2 _

/-- **C10.** A mode outside `{init, daemon, add-account}` is rejected with the
invalid-mode error, but only after `ensure_noorsigner_installed` has already
run: the returned trace is exactly the installer's actions, so the rejected
call can still have created the per-user directory and installed the binary. -/
theorem invalid_mode_error_after_install (env : LaunchEnv) (mode : String)
    (h1 : mode ≠ "init") (h2 : mode ≠ "daemon") (h3 : mode ≠ "add-account")
    (hEnsure : ∃ p, (ensure_noorsigner_installed env.fs).2 = Except.ok p)
    (hBin : env.binaryPresentAfterEnsure = true)
    (hPerms : env.permsResult = none) :
    launch_key_signer env mode =
      ((ensure_noorsigner_installed env.fs).1,
       Except.error ("Invalid mode: " ++ mode)) := by
  obtain ⟨p, hp⟩ := hEnsure
  obtain ⟨home, hh⟩ := ensure_ok_home hp
  have hc := commandOfMode_none h1 h2 h3
  simp only [launch_key_signer, hp, hh, hBin, hPerms, hc]
  simp

/-- Launch environment for a fresh install (directory and binary absent). -/
def envInvalidMode : LaunchEnv :=
  { fs := fsFreshInstall, binaryPresentAfterEnsure := true, permsResult := none,
    trustFile := none, trustReadErr := none, now := 0,
    socketAt := fun _ => false, pollChecks := 30, spawnDetachedErr := none,
    termSpawn := fun _ => true }

/-- **C10, witness**: a rejected mode on a fresh install still creates the
directory and installs the binary before the invalid-mode error. -/
theorem invalid_mode_error_after_install_witness :
    launch_key_signer envInvalidMode "frobnicate" =
      ([Action.createDir, Action.copyBinary, Action.chmod],
       Except.error "Invalid mode: frobnicate") := by
  have h := invalid_mode_error_after_install envInvalidMode "frobnicate"
    (by decide) (by decide) (by decide)
    ⟨"/home/u/.noornote/bin/noorsigner", by decide⟩ rfl rfl
  rw [h]
  decide

end NoorSigner
